/-
  Verification of the fleet_list voyage-scheduling and buffer-simulation core
  (src/app.py) against its natural-language specification.

  Shallow embedding conventions:
  * `datetime` timestamps and `timedelta` durations are modelled as rationals
    (`ℚ`), measured in days since an arbitrary epoch.  The Python expression
    `(t2 - t1).days` floors towards negative infinity, modelled as `Int.floor`.
  * Python `int` is `ℤ`; `range(1, n + 1)` for `n ≤ 0` is empty, which matches
    `Int.toNat` sending non-positive integers to `0`.
  * `list.sort(key=lambda x: x["time"])` is a stable sort keyed on `time`;
    any stable sort computes the same list, so it is modelled with Mathlib's
    stable `List.insertionSort` on the relation `byTime`.
  * Python `max(xs)` / `min(xs)` raise `ValueError` on an empty list; they are
    modelled as `Except`-valued functions whose error constructor
    `MetricsError.emptyCollection` stands for that unqualified ValueError.
  * Indexing expressions that would raise `IndexError` (such as
    `itinerary[-1]` on an empty itinerary or `get_ports()[-1]` on a route
    with no legs) are modelled with `getLastD` / `headD` defaults; every
    theorem that depends on such a value carries the non-emptiness
    precondition under which the source does not raise.
-/
import Mathlib

namespace FleetList

/-- One directed port-to-port segment of a route (dataclass `Leg`). -/
structure Leg where
  name : String
  port_from : String
  port_to : String
  duration_days : ℚ
  operation_days : ℚ
deriving Repr, DecidableEq, Inhabited

/-- Source `Leg.total_time`: transit plus operation duration. -/
def Leg.total_time (l : Leg) : ℚ :=
  l.duration_days + l.operation_days

/-- A route: an ordered list of legs plus a vessel capacity (dataclass `Route`). -/
structure Route where
  name : String
  legs : List Leg
  ship_capacity : ℚ
deriving Repr, DecidableEq, Inhabited

/-- Source `Route.total_time`: sum of the legs' total times. -/
def Route.total_time (r : Route) : ℚ :=
  (r.legs.map Leg.total_time).sum

/-- Source `Route.get_ports`: the first leg's origin followed by every leg's
destination.  The source indexes `legs[0]` and raises `IndexError` on an
empty leg list; the `[]` branch is unreachable under that precondition. -/
def Route.get_ports (r : Route) : List String :=
  match r.legs with
  | [] => []
  | l0 :: _ => l0.port_from :: r.legs.map Leg.port_to

/-- One leg's realized timing within a voyage (the itinerary dict built in
`VoyageScheduler._calculate_voyage`). -/
structure Stop where
  leg_no : Nat
  leg : String
  port_from : String
  port_to : String
  departure : ℚ
  arrival : ℚ
  operation_end : ℚ
  voyage_time_days : ℚ
  operation_days : ℚ
deriving Repr, DecidableEq, Inhabited

/-- One vessel's realized schedule (the voyage dict). -/
structure Voyage where
  ship_id : ℤ
  route : String
  ship_name : String
  capacity : ℚ
  itinerary : List Stop
  total_voyage_time : ℤ
  arrival_final : ℚ
deriving Repr, DecidableEq, Inhabited

/-- The itinerary-building loop of `_calculate_voyage`: walk the legs from
`current`, emitting one `Stop` per leg and carrying `operation_end` forward
as the next departure.  `idx` is the 0-based position of the first remaining
leg (`leg_no = idx + 1`). -/
def calcItinerary : List Leg → ℚ → Nat → List Stop
  | [], _, _ => []
  | leg :: rest, current, idx =>
    let arrival := current + leg.duration_days
    let leg_end := arrival + leg.operation_days
    { leg_no := idx + 1
      leg := leg.name
      port_from := leg.port_from
      port_to := leg.port_to
      departure := current
      arrival := arrival
      operation_end := leg_end
      voyage_time_days := leg.duration_days
      operation_days := leg.operation_days } :: calcItinerary rest leg_end (idx + 1)

/-- The final value of `current_time` after the leg loop: each leg advances
time by its transit plus operation duration. -/
def walkEnd (legs : List Leg) (current : ℚ) : ℚ :=
  legs.foldl (fun t leg => t + leg.duration_days + leg.operation_days) current

/-- Source `VoyageScheduler._calculate_voyage`: builds one voyage from a departure
timestamp.  `total_voyage_time` is `(current_time - departure).days`, i.e.
the floor of the elapsed fractional days. -/
def calculate_voyage (route : Route) (ship_id : ℤ) (departure : ℚ) : Voyage :=
  { ship_id := ship_id
    route := route.name
    ship_name := "Ship_" ++ toString ship_id
    capacity := route.ship_capacity
    itinerary := calcItinerary route.legs departure 0
    total_voyage_time := Int.floor (walkEnd route.legs departure - departure)
    arrival_final := walkEnd route.legs departure }

/-- The scheduler object: parameters plus the voyages generated at
construction time. -/
structure VoyageScheduler where
  route : Route
  start_date : ℚ
  num_ships : ℤ
  interval_days : ℚ
  voyages : List Voyage
deriving Repr, DecidableEq, Inhabited

/-- Source `VoyageScheduler.__init__` / `_generate_voyages`: ship `k` (written with
0-based `k` here, `ship_id = k + 1`) departs at `start_date + k * interval`.
`range(1, num_ships + 1)` is empty for `num_ships ≤ 0`, matching
`Int.toNat`.  The constructor performs no validation. -/
def VoyageScheduler.make (route : Route) (start_date : ℚ) (num_ships : ℤ)
    (interval_days : ℚ) : VoyageScheduler :=
  { route := route
    start_date := start_date
    num_ships := num_ships
    interval_days := interval_days
    voyages := (List.range num_ships.toNat).map fun (k : ℕ) =>
      calculate_voyage route ((k : ℤ) + 1) (start_date + (k : ℚ) * interval_days) }

/-- The two event kinds built by `TankSimulation._simulate`
(`"river_arrival"` = inflow, `"sea_departure"` = outflow). -/
inductive EventType where
  | river_arrival
  | sea_departure
deriving Repr, DecidableEq, Inhabited

/-- A buffer event dict: `{time, type, ship, port, volume}`. -/
structure Event where
  time : ℚ
  type : EventType
  ship : String
  port : String
  volume : ℚ
deriving Repr, DecidableEq, Inhabited

/-- One `tank_log` entry.  The source stores a formatted string
`"Выгрузка речного (+v)"` / `"Загрузка морского (-v)"` in `action`; the
kind/volume pair that string renders is kept structurally as
`action_kind` / `action_volume`. -/
structure LogEntry where
  time : ℚ
  ship : String
  action_kind : EventType
  action_volume : ℚ
  tank_level : ℚ
  port : String
deriving Repr, DecidableEq, Inhabited

/-- The pre-sort event list of `TankSimulation._simulate`: one
`river_arrival` per river voyage at the last stop's `arrival`, then one
`sea_departure` per sea voyage at the first stop's `departure`; every event
carries the voyage's capacity and the river route's terminal port.  The
source raises `IndexError` on an empty itinerary / empty river legs; the
`getLastD` / `headD` defaults are unreachable under those preconditions. -/
def mkEvents (river_scheduler sea_scheduler : VoyageScheduler) : List Event :=
  let transfer_port := river_scheduler.route.get_ports.getLastD ""
  river_scheduler.voyages.map (fun v =>
    { time := (v.itinerary.getLastD default).arrival
      type := EventType.river_arrival
      ship := v.ship_name
      port := transfer_port
      volume := v.capacity })
  ++ sea_scheduler.voyages.map (fun v =>
    { time := (v.itinerary.headD default).departure
      type := EventType.sea_departure
      ship := v.ship_name
      port := transfer_port
      volume := v.capacity })

/-- The sort key of `self.events.sort(key=lambda x: x["time"])`. -/
def byTime (a b : Event) : Prop :=
  a.time ≤ b.time

instance : DecidableRel byTime := fun a b =>
  inferInstanceAs (Decidable (a.time ≤ b.time))

instance : IsTotal Event byTime :=
  ⟨fun a b => le_total a.time b.time⟩

instance : IsTrans Event byTime :=
  ⟨fun _ _ _ h1 h2 => le_trans h1 h2⟩

/-- One replay step: an inflow adds the volume and clamps from above at
`capacity`; an outflow subtracts the volume and clamps from below at `0`.
Exactly the two branches of the replay loop. -/
def step (capacity level : ℚ) (e : Event) : ℚ :=
  match e.type with
  | EventType.river_arrival => min (level + e.volume) capacity
  | EventType.sea_departure => max (level - e.volume) 0

/-- The replay loop of `_simulate`: thread `level` through the events in
order, appending one log entry (with the post-event level) per event.
Returns the final level and the log. -/
def replay (capacity : ℚ) : ℚ → List Event → ℚ × List LogEntry
  | level, [] => (level, [])
  | level, e :: rest =>
    let level1 := step capacity level e
    let entry : LogEntry :=
      { time := e.time
        ship := e.ship
        action_kind := e.type
        action_volume := e.volume
        tank_level := level1
        port := e.port }
    let tail := replay capacity level1 rest
    (tail.1, entry :: tail.2)

/-- The simulation object after `__init__` has run `_simulate`:
`events` holds the time-sorted event list (the in-place `sort` leaves the
sorted list in `self.events`), `tank_log` the replay log, `level` the final
level.  The constructor performs no validation of `capacity`. -/
structure TankSimulation where
  capacity : ℚ
  level : ℚ
  river_scheduler : VoyageScheduler
  sea_scheduler : VoyageScheduler
  events : List Event
  tank_log : List LogEntry
deriving Repr, Inhabited

/-- Source `TankSimulation.__init__`: build the events, sort them stably by time,
replay from level 0. -/
def TankSimulation.make (capacity : ℚ)
    (river_scheduler sea_scheduler : VoyageScheduler) : TankSimulation :=
  let sortedEvents := (mkEvents river_scheduler sea_scheduler).insertionSort byTime
  let result := replay capacity 0 sortedEvents
  { capacity := capacity
    level := result.1
    river_scheduler := river_scheduler
    sea_scheduler := sea_scheduler
    events := sortedEvents
    tank_log := result.2 }

/-- Python `max([...])` / `min([...])` on an empty list raise an unqualified
`ValueError` ("arg is an empty sequence"); `emptyCollection` models that
error.  No other failure kind exists in the metrics code. -/
inductive MetricsError where
  | emptyCollection
deriving Repr, DecidableEq

/-- Source expression `max([l['tank_level'] for l in tank_sim.tank_log])` from `export_to_excel`
(and the identical expressions in `export_to_pdf` and the metrics tab). -/
def max_level (sim : TankSimulation) : Except MetricsError ℚ :=
  match sim.tank_log.map LogEntry.tank_level with
  | [] => Except.error MetricsError.emptyCollection
  | x :: xs => Except.ok (xs.foldl max x)

/-- Source expression `min([l['tank_level'] for l in tank_sim.tank_log])`. -/
def min_level (sim : TankSimulation) : Except MetricsError ℚ :=
  match sim.tank_log.map LogEntry.tank_level with
  | [] => Except.error MetricsError.emptyCollection
  | x :: xs => Except.ok (xs.foldl min x)

/-- Python `max` over an integer list, as a fold from the first element.
The `[]` branch models the `ValueError` path of `max([])`, unreachable
under the non-emptiness preconditions carried by the theorems that use
this definition. -/
def pyMaxInt : List ℤ → ℤ
  | [] => 0
  | x :: xs => xs.foldl max x

/-- Source expression
`max([(v['arrival_final'] - river.voyages[0]['itinerary'][0]['departure']).days
      for v in river.voyages + sea.voyages])`
from `export_to_excel` and the metrics tab: the base timestamp is the first
river (inflow) voyage's first stop's departure, and `.days` floors. -/
def cycle_length (river_scheduler sea_scheduler : VoyageScheduler) : ℤ :=
  let base := ((river_scheduler.voyages.headD default).itinerary.headD default).departure
  pyMaxInt ((river_scheduler.voyages ++ sea_scheduler.voyages).map
    (fun v => Int.floor (v.arrival_final - base)))

/-! ### Helper lemmas about the scheduler -/

theorem calcItinerary_nil (t : ℚ) (idx : Nat) : calcItinerary [] t idx = [] := rfl

theorem calcItinerary_cons (leg : Leg) (rest : List Leg) (t : ℚ) (idx : Nat) :
    calcItinerary (leg :: rest) t idx =
      { leg_no := idx + 1
        leg := leg.name
        port_from := leg.port_from
        port_to := leg.port_to
        departure := t
        arrival := t + leg.duration_days
        operation_end := t + leg.duration_days + leg.operation_days
        voyage_time_days := leg.duration_days
        operation_days := leg.operation_days } ::
        calcItinerary rest (t + leg.duration_days + leg.operation_days) (idx + 1) := by
  simp [calcItinerary]

theorem calcItinerary_length (legs : List Leg) (t : ℚ) (idx : Nat) :
    (calcItinerary legs t idx).length = legs.length := by
  induction legs generalizing t idx with
  | nil => rfl
  | cons leg rest ih => simp [calcItinerary_cons, ih]

theorem calcItinerary_eq_nil_iff (legs : List Leg) (t : ℚ) (idx : Nat) :
    calcItinerary legs t idx = [] ↔ legs = [] := by
  cases legs with
  | nil => simp [calcItinerary_nil]
  | cons leg rest => simp [calcItinerary_cons]

theorem walkEnd_nil (t : ℚ) : walkEnd [] t = t := rfl

theorem walkEnd_cons (leg : Leg) (rest : List Leg) (t : ℚ) :
    walkEnd (leg :: rest) t = walkEnd rest (t + leg.duration_days + leg.operation_days) := rfl

theorem walkEnd_eq_add_sum (legs : List Leg) (t : ℚ) :
    walkEnd legs t = t + (legs.map Leg.total_time).sum := by
  induction legs generalizing t with
  | nil => simp [walkEnd_nil]
  | cons leg rest ih =>
    simp only [walkEnd_cons, ih, List.map_cons, List.sum_cons, Leg.total_time]
    ring

/-- Every stop of an itinerary satisfies the two within-stop timing
equations: arrival is departure plus the recorded transit duration, and
operation end is arrival plus the recorded operation duration. -/
theorem calcItinerary_stop_arith (legs : List Leg) (t : ℚ) (idx : Nat) :
    ∀ s ∈ calcItinerary legs t idx,
      s.arrival = s.departure + s.voyage_time_days ∧
      s.operation_end = s.arrival + s.operation_days := by
  induction legs generalizing t idx with
  | nil => simp [calcItinerary_nil]
  | cons leg rest ih =>
    intro s hs
    rw [calcItinerary_cons] at hs
    rcases List.mem_cons.1 hs with h | h
    · subst h; constructor <;> simp
    · exact ih _ _ s h

/-- The first emitted stop departs at the walk's current time. -/
theorem calcItinerary_head_departure (legs : List Leg) (t : ℚ) (idx : Nat)
    (h : legs ≠ []) (d : Stop) :
    ((calcItinerary legs t idx).headD d).departure = t := by
  cases legs with
  | nil => exact absurd rfl h
  | cons leg rest => rw [calcItinerary_cons]; rfl

/-- Every stop after the first departs exactly when the previous stop's
operation ended: the chaining invariant of the leg walk. -/
theorem calcItinerary_chain (legs : List Leg) (t : ℚ) (idx : Nat) :
    List.Chain' (fun a b => b.departure = a.operation_end)
      (calcItinerary legs t idx) := by
  induction legs generalizing t idx with
  | nil => simp [calcItinerary_nil]
  | cons leg rest ih =>
    rw [calcItinerary_cons]
    refine List.chain'_cons'.2 ⟨?_, ih _ _⟩
    intro y hy
    cases rest with
    | nil => simp [calcItinerary_nil] at hy
    | cons leg2 rest2 =>
      rw [calcItinerary_cons] at hy
      simp only [List.head?_cons, Option.mem_def, Option.some.injEq] at hy
      subst hy
      rfl

/-- The last stop's operation end equals the final walk time. -/
theorem calcItinerary_getLastD_operation_end (legs : List Leg) (t : ℚ) (idx : Nat)
    (h : legs ≠ []) (d : Stop) :
    ((calcItinerary legs t idx).getLastD d).operation_end = walkEnd legs t := by
  induction legs generalizing t idx d with
  | nil => exact absurd rfl h
  | cons leg rest ih =>
    rw [calcItinerary_cons]
    cases rest with
    | nil =>
      simp [calcItinerary_nil, List.getLastD, walkEnd_cons, walkEnd_nil]
    | cons leg2 rest2 =>
      rw [List.getLastD_cons, walkEnd_cons]
      exact ih _ _ (by simp) _

/-- Characterization of the voyages produced by the scheduler constructor:
the list has one entry per ship id `1..num_ships`, the `k`-th (0-based)
being the voyage computed from departure `start_date + k * interval`. -/
theorem mem_make_voyages {route : Route} {d i : ℚ} {n : ℤ} {v : Voyage} :
    v ∈ (VoyageScheduler.make route d n i).voyages ↔
      ∃ k : ℕ, k < n.toNat ∧
        v = calculate_voyage route ((k : ℤ) + 1) (d + (k : ℚ) * i) := by
  unfold VoyageScheduler.make
  constructor
  · intro hv
    obtain ⟨k, hk, rfl⟩ := List.mem_map.1 hv
    exact ⟨k, List.mem_range.1 hk, rfl⟩
  · rintro ⟨k, hk, rfl⟩
    exact List.mem_map.2 ⟨k, List.mem_range.2 hk, rfl⟩

theorem make_voyages_length (route : Route) (d i : ℚ) (n : ℤ) :
    (VoyageScheduler.make route d n i).voyages.length = n.toNat := by
  unfold VoyageScheduler.make
  rw [List.length_map, List.length_range]

theorem make_voyages_getD (route : Route) (d i : ℚ) (n : ℤ) (k : ℕ)
    (hk : k < n.toNat) :
    (VoyageScheduler.make route d n i).voyages.getD k default =
      calculate_voyage route ((k : ℤ) + 1) (d + (k : ℚ) * i) := by
  unfold VoyageScheduler.make
  rw [List.getD_eq_getElem?_getD, List.getElem?_map, List.getElem?_range hk]
  rfl

/-! ### Helper lemmas about events, the replay, and the metrics -/

/-- Auxiliary: the last element of `p0 :: legs.map port_to` is the last
leg's destination, for non-empty `legs`. -/
theorem getLastD_cons_map_port_to (legs : List Leg) (p0 : String)
    (h : legs ≠ []) :
    (p0 :: legs.map Leg.port_to).getLastD "" = (legs.getLastD default).port_to := by
  induction legs generalizing p0 with
  | nil => exact absurd rfl h
  | cons leg rest ih =>
    cases rest with
    | nil => rfl
    | cons leg2 rest2 =>
      rw [List.map_cons, List.getLastD_cons, List.getLastD_cons]
      exact ih leg.port_from (by simp)

/-- The transfer port read by `_simulate` (`get_ports()[-1]`) is the last
leg's destination port, for a route with at least one leg. -/
theorem get_ports_getLastD (r : Route) (h : r.legs ≠ []) :
    r.get_ports.getLastD "" = (r.legs.getLastD default).port_to := by
  rcases hl : r.legs with _ | ⟨l0, rest⟩
  · exact absurd hl h
  · rw [Route.get_ports, hl]
    exact getLastD_cons_map_port_to (l0 :: rest) l0.port_from (by simp)

/-- Every event built by `_simulate` carries some voyage's capacity as its
volume. -/
theorem mem_mkEvents_volume {river_scheduler sea_scheduler : VoyageScheduler}
    {e : Event} (he : e ∈ mkEvents river_scheduler sea_scheduler) :
    ∃ v, (v ∈ river_scheduler.voyages ∨ v ∈ sea_scheduler.voyages) ∧
      e.volume = v.capacity := by
  rcases List.mem_append.1 he with h | h
  · obtain ⟨v, hv, rfl⟩ := List.mem_map.1 h
    exact ⟨v, Or.inl hv, rfl⟩
  · obtain ⟨v, hv, rfl⟩ := List.mem_map.1 h
    exact ⟨v, Or.inr hv, rfl⟩

/-- The replay log mirrors the event list entry-for-entry in order: times,
kinds, volumes, ships and ports are copied over unchanged. -/
theorem replay_log_shape (capacity : ℚ) :
    ∀ (es : List Event) (level : ℚ),
      (replay capacity level es).2.map
          (fun en => (en.time, en.action_kind, en.action_volume, en.ship, en.port)) =
        es.map (fun e => (e.time, e.type, e.volume, e.ship, e.port))
  | [], _ => rfl
  | e :: rest, level => by
    simp only [replay, List.map_cons]
    exact congrArg _ (replay_log_shape capacity rest _)

theorem replay_log_length (capacity : ℚ) (es : List Event) (level : ℚ) :
    (replay capacity level es).2.length = es.length := by
  have := congrArg List.length (replay_log_shape capacity es level)
  simpa using this

/-- Clamping invariant of one replay step: a step from a level inside
`[0, capacity]` with a non-negative volume stays inside `[0, capacity]`. -/
theorem step_mem_Icc {capacity level : ℚ} {e : Event}
    (hcap : 0 ≤ capacity) (h0 : 0 ≤ level) (h1 : level ≤ capacity)
    (hvol : 0 ≤ e.volume) :
    0 ≤ step capacity level e ∧ step capacity level e ≤ capacity := by
  unfold step
  rcases e.type with _ | _
  · constructor
    · exact le_min (by linarith) hcap
    · exact min_le_right _ _
  · constructor
    · exact le_max_right _ _
    · exact max_le (by linarith) hcap

/-- Clamping invariant of the whole replay: starting inside `[0, capacity]`
with only non-negative volumes, every logged level stays inside
`[0, capacity]`. -/
theorem replay_levels_mem_Icc (capacity : ℚ) (hcap : 0 ≤ capacity) :
    ∀ (es : List Event) (level : ℚ), 0 ≤ level → level ≤ capacity →
      (∀ e ∈ es, 0 ≤ e.volume) →
      ∀ en ∈ (replay capacity level es).2,
        0 ≤ en.tank_level ∧ en.tank_level ≤ capacity
  | [], _, _, _, _ => by simp [replay]
  | e :: rest, level, h0, h1, hvol => by
    intro en hen
    obtain ⟨hs0, hs1⟩ :=
      step_mem_Icc hcap h0 h1 (hvol e (List.mem_cons_self e rest))
    simp only [replay, List.mem_cons] at hen
    rcases hen with rfl | hen
    · exact ⟨hs0, hs1⟩
    · exact replay_levels_mem_Icc capacity hcap rest _ hs0 hs1
        (fun e' he' => hvol e' (List.mem_cons_of_mem e he')) en hen

/-- The signed volume contributed by one event to the unclamped balance. -/
def signedVolume (e : Event) : ℚ :=
  match e.type with
  | EventType.river_arrival => e.volume
  | EventType.sea_departure => -e.volume

/-- Cumulative signed volume of an event list (inflow minus outflow). -/
def netSum (es : List Event) : ℚ :=
  (es.map signedVolume).sum

/-- Total inflow volume of an event list. -/
def totalInflow (es : List Event) : ℚ :=
  ((es.filter fun e => e.type == EventType.river_arrival).map Event.volume).sum

/-- Total outflow volume of an event list. -/
def totalOutflow (es : List Event) : ℚ :=
  ((es.filter fun e => e.type == EventType.sea_departure).map Event.volume).sum

theorem netSum_nil : netSum [] = 0 := rfl

theorem netSum_cons (e : Event) (es : List Event) :
    netSum (e :: es) = signedVolume e + netSum es := by
  simp [netSum]

theorem totalInflow_cons (e : Event) (es : List Event) :
    totalInflow (e :: es) =
      (if e.type = EventType.river_arrival then e.volume else 0) + totalInflow es := by
  simp only [totalInflow, List.filter_cons, beq_iff_eq]
  split
  · simp
  · simp

theorem totalOutflow_cons (e : Event) (es : List Event) :
    totalOutflow (e :: es) =
      (if e.type = EventType.sea_departure then e.volume else 0) + totalOutflow es := by
  simp only [totalOutflow, List.filter_cons, beq_iff_eq]
  split
  · simp
  · simp

theorem signedVolume_eq (e : Event) :
    signedVolume e =
      (if e.type = EventType.river_arrival then e.volume else 0) -
      (if e.type = EventType.sea_departure then e.volume else 0) := by
  unfold signedVolume
  rcases e.type with _ | _ <;> simp

theorem netSum_eq_totalInflow_sub_totalOutflow (es : List Event) :
    netSum es = totalInflow es - totalOutflow es := by
  induction es with
  | nil => simp [netSum, totalInflow, totalOutflow]
  | cons e rest ih =>
    rw [netSum_cons, totalInflow_cons, totalOutflow_cons, ih, signedVolume_eq]
    ring

theorem signedVolume_river {e : Event} (he : e.type = EventType.river_arrival) :
    signedVolume e = e.volume := by
  unfold signedVolume
  rw [he]

theorem signedVolume_sea {e : Event} (he : e.type = EventType.sea_departure) :
    signedVolume e = -e.volume := by
  unfold signedVolume
  rw [he]

/-- One replay step whose unclamped result already lies inside
`[0, capacity]` performs no clamping. -/
theorem step_no_clamp (capacity level : ℚ) (e : Event)
    (h0 : 0 ≤ level + signedVolume e) (h1 : level + signedVolume e ≤ capacity) :
    step capacity level e = level + signedVolume e := by
  cases he : e.type with
  | river_arrival =>
    rw [signedVolume_river he] at h0 h1 ⊢
    unfold step
    rw [he]
    exact min_eq_left h1
  | sea_departure =>
    rw [signedVolume_sea he] at h0 h1 ⊢
    unfold step
    rw [he, ← sub_eq_add_neg]
    exact max_eq_left (by linarith)

/-- Conservation: if every prefix of the event list keeps the unclamped
balance inside `[0, capacity]`, no clamp fires and the final level is the
start level plus the net signed volume. -/
theorem replay_final_level (capacity : ℚ) :
    ∀ (es : List Event) (level : ℚ),
      (∀ n ≤ es.length,
        0 ≤ level + netSum (es.take n) ∧ level + netSum (es.take n) ≤ capacity) →
      (replay capacity level es).1 = level + netSum es
  | [], level, _ => by simp [replay, netSum_nil]
  | e :: rest, level, h => by
    have h1 := h 1 (by simp)
    rw [show (1 : ℕ) = 0 + 1 from rfl, List.take_succ_cons, List.take_zero,
      netSum_cons, netSum_nil, add_zero] at h1
    have hstep : step capacity level e = level + signedVolume e :=
      step_no_clamp capacity level e h1.1 h1.2
    have htail :
        (replay capacity (level + signedVolume e) rest).1 =
          level + signedVolume e + netSum rest := by
      apply replay_final_level capacity rest
      intro n hn
      have hh := h (n + 1) (Nat.succ_le_succ hn)
      rw [List.take_succ_cons, netSum_cons] at hh
      constructor <;> linarith [hh.1, hh.2]
    simp only [replay, hstep, htail, netSum_cons]
    ring

/-- Auxiliary for Python's `max` over a non-empty list: the seed is bounded
by the fold. -/
theorem le_foldl_max (xs : List ℤ) (x : ℤ) : x ≤ xs.foldl max x := by
  induction xs generalizing x with
  | nil => exact le_refl x
  | cons z zs ih => exact le_trans (le_max_left x z) (ih (max x z))

/-- Auxiliary: every listed element is bounded by the fold. -/
theorem mem_le_foldl_max (xs : List ℤ) :
    ∀ (x y : ℤ), y ∈ xs → y ≤ xs.foldl max x := by
  induction xs with
  | nil => intro x y hy; cases hy
  | cons z zs ih =>
    intro x y hy
    rcases List.mem_cons.1 hy with rfl | hy'
    · exact le_trans (le_max_right x y) (le_foldl_max zs (max x y))
    · exact ih (max x z) y hy'

/-- Auxiliary: the fold is attained, either by the seed or by an element. -/
theorem foldl_max_attained (xs : List ℤ) (x : ℤ) :
    xs.foldl max x = x ∨ xs.foldl max x ∈ xs := by
  induction xs generalizing x with
  | nil => exact Or.inl rfl
  | cons z zs ih =>
    rcases ih (max x z) with h | h
    · rcases max_choice x z with hm | hm
      · exact Or.inl (by rw [List.foldl_cons, h, hm])
      · exact Or.inr (by rw [List.foldl_cons, h, hm]; exact List.mem_cons_self z zs)
    · exact Or.inr (List.mem_cons_of_mem z h)

/-- Characterization of `pyMaxInt` on a non-empty list: it bounds every
element. -/
theorem pyMaxInt_cons_ge (x : ℤ) (xs : List ℤ) :
    ∀ y ∈ x :: xs, y ≤ pyMaxInt (x :: xs) := by
  intro y hy
  rcases List.mem_cons.1 hy with rfl | hy'
  · exact le_foldl_max xs y
  · exact mem_le_foldl_max xs x y hy'

/-- Characterization of `pyMaxInt` on a non-empty list: it is attained. -/
theorem pyMaxInt_cons_mem (x : ℤ) (xs : List ℤ) :
    pyMaxInt (x :: xs) ∈ x :: xs := by
  rcases foldl_max_attained xs x with h | h
  · rw [pyMaxInt, h]; exact List.mem_cons_self x xs
  · rw [pyMaxInt]; exact List.mem_cons_of_mem x h

/-! ### Stability of the time-keyed sort (tie-break order) -/

/-- Tie-break property of one ordered pair of events: if the two share a
timestamp, it is not the case that the earlier one is an outflow and the
later one an inflow. -/
def TiePair (a b : Event) : Prop :=
  a.time = b.time →
    ¬(a.type = EventType.sea_departure ∧ b.type = EventType.river_arrival)

/-- Inserting an inflow event with the stable insert never places it after
an event with an equal timestamp, so the tie-break property is preserved. -/
theorem pairwise_tiePair_orderedInsert (x : Event)
    (hx : x.type = EventType.river_arrival) :
    ∀ (l : List Event), l.Pairwise TiePair →
      (l.orderedInsert byTime x).Pairwise TiePair := by
  intro l
  induction l with
  | nil =>
    intro _
    simp [List.orderedInsert, TiePair]
  | cons y ys ih =>
    intro hl
    rw [List.pairwise_cons] at hl
    simp only [List.orderedInsert]
    split
    · refine List.pairwise_cons.2 ⟨?_, List.pairwise_cons.2 hl⟩
      intro z _ _ hcontra
      rw [hx] at hcontra
      exact absurd hcontra.1 (by simp)
    · rename_i hxy
      refine List.pairwise_cons.2 ⟨?_, ih hl.2⟩
      intro z hz
      rcases (List.mem_orderedInsert byTime).1 hz with rfl | hz'
      · intro ht
        exact absurd (le_of_eq ht.symm) hxy
      · exact hl.1 z hz'

/-- A list of outflow-only events trivially satisfies the tie-break
property pairwise. -/
theorem pairwise_tiePair_of_all_sea :
    ∀ (l : List Event), (∀ e ∈ l, e.type = EventType.sea_departure) →
      l.Pairwise TiePair := by
  intro l
  induction l with
  | nil => intro _; exact List.Pairwise.nil
  | cons e rest ih =>
    intro h
    refine List.pairwise_cons.2 ⟨?_, ih (fun z hz => h z (List.mem_cons_of_mem e hz))⟩
    intro z hz _ hcontra
    rw [h z (List.mem_cons_of_mem e hz)] at hcontra
    exact absurd hcontra.2 (by simp)

/-- Stability of the time-keyed sort: sorting a concatenation of inflow
events followed by outflow events never lets an outflow overtake an inflow
with an equal timestamp. -/
theorem pairwise_tiePair_insertionSort (ins outs : List Event)
    (hin : ∀ e ∈ ins, e.type = EventType.river_arrival)
    (hout : ∀ e ∈ outs, e.type = EventType.sea_departure) :
    ((ins ++ outs).insertionSort byTime).Pairwise TiePair := by
  induction ins with
  | nil =>
    rw [List.nil_append]
    exact pairwise_tiePair_of_all_sea _
      (fun e he => hout e ((List.mem_insertionSort byTime).1 he))
  | cons a as ih =>
    rw [List.cons_append, List.insertionSort]
    exact pairwise_tiePair_orderedInsert a (hin a (List.mem_cons_self a as)) _
      (ih (fun e he => hin e (List.mem_cons_of_mem a he)))

/-- The events built by `_simulate` list all inflow events before all
outflow events, each side homogeneously typed. -/
theorem mkEvents_split (river_scheduler sea_scheduler : VoyageScheduler) :
    ∃ ins outs,
      mkEvents river_scheduler sea_scheduler = ins ++ outs ∧
      (∀ e ∈ ins, e.type = EventType.river_arrival) ∧
      (∀ e ∈ outs, e.type = EventType.sea_departure) := by
  refine ⟨_, _, rfl, ?_, ?_⟩
  · intro e he
    obtain ⟨v, _, rfl⟩ := List.mem_map.1 he
    rfl
  · intro e he
    obtain ⟨v, _, rfl⟩ := List.mem_map.1 he
    rfl

theorem mkEvents_length (river_scheduler sea_scheduler : VoyageScheduler) :
    (mkEvents river_scheduler sea_scheduler).length =
      river_scheduler.voyages.length + sea_scheduler.voyages.length := by
  show (List.map _ _ ++ List.map _ _).length = _
  rw [List.length_append, List.length_map, List.length_map]

theorem calculate_voyage_capacity (route : Route) (ship_id : ℤ) (departure : ℚ) :
    (calculate_voyage route ship_id departure).capacity = route.ship_capacity := rfl

theorem calculate_voyage_itinerary (route : Route) (ship_id : ℤ) (departure : ℚ) :
    (calculate_voyage route ship_id departure).itinerary =
      calcItinerary route.legs departure 0 := rfl

/-- The replay log copies each event's timestamp and kind in order. -/
theorem replay_log_key (capacity : ℚ) :
    ∀ (es : List Event) (level : ℚ),
      (replay capacity level es).2.map (fun en => (en.time, en.action_kind)) =
        es.map (fun e => (e.time, e.type))
  | [], _ => rfl
  | e :: rest, level => by
    simp only [replay, List.map_cons]
    exact congrArg _ (replay_log_key capacity rest _)

/-! ### Concrete instances used by the witnesses and counterexamples -/

/-- Concrete river leg: the app's default river leg (5 days transit, 1 day
operation). -/
def rivLeg : Leg :=
  { name := "Riv_A-B", port_from := "PortA", port_to := "PortB",
    duration_days := 5, operation_days := 1 }

/-- Concrete sea leg: the app's default sea leg (10 days transit, 1 day
operation). -/
def seaLeg : Leg :=
  { name := "Sea_B-C", port_from := "PortB", port_to := "PortC",
    duration_days := 10, operation_days := 1 }

/-- Concrete two-leg route (the engine must not assume one leg per route). -/
def twoLegRoute : Route :=
  { name := "Two", legs := [rivLeg,
      { name := "Riv_B-C", port_from := "PortB", port_to := "PortC",
        duration_days := 2, operation_days := 1/2 }],
    ship_capacity := 30 }

def rivRoute : Route :=
  { name := "RivRoute", legs := [rivLeg], ship_capacity := 30 }

def seaRoute : Route :=
  { name := "SeaRoute", legs := [seaLeg], ship_capacity := 25 }

def rivSched : VoyageScheduler := VoyageScheduler.make rivRoute 0 3 1

def seaSched : VoyageScheduler := VoyageScheduler.make seaRoute 2 2 1

/-- Route with an empty leg list (invalid per the spec, accepted by the
constructor). -/
def emptyLegRoute : Route := { name := "E", legs := [], ship_capacity := 10 }

/-- Route with a negative vessel capacity (invalid per the spec, accepted
by the constructor). -/
def negCapRoute : Route :=
  { name := "N", legs := [rivLeg], ship_capacity := -5 }

theorem headD_mem {α : Type} (l : List α) (d : α) (h : l ≠ []) :
    l.headD d ∈ l := by
  cases l with
  | nil => exact absurd rfl h
  | cons a t => exact List.mem_cons_self a t

/-- Concrete one-ship river scheduler (voyage arrives at the transfer port
at day 5). -/
def c6Riv : VoyageScheduler := VoyageScheduler.make rivRoute 0 1 1

/-- Concrete zero-ship sea scheduler. -/
def c6Sea : VoyageScheduler := VoyageScheduler.make seaRoute 10 0 1

/-- Concrete one-ship sea scheduler departing at day 2. -/
def c7Sea : VoyageScheduler := VoyageScheduler.make seaRoute 2 1 1

/-- Simulation with both fleets empty: its log is empty. -/
def c9Empty : TankSimulation :=
  TankSimulation.make 100 (VoyageScheduler.make rivRoute 0 0 1)
    (VoyageScheduler.make seaRoute 0 0 1)

/-- Simulation with only the outflow fleet empty: its log is non-empty. -/
def c9Half : TankSimulation :=
  TankSimulation.make 100 (VoyageScheduler.make rivRoute 0 1 1)
    (VoyageScheduler.make seaRoute 0 0 1)

/-! ### Claim theorems -/

/-- C1: in every simulation run of `TankSimulation`, after applying any
event in the replay, the recorded buffer level (`tank_level`) never exceeds
the capacity and never drops below 0, for any event sequence the two
schedulers induce and any (non-negative, per the data model) volumes. -/
theorem C1_clamping (capacity : ℚ)
    (river_scheduler sea_scheduler : VoyageScheduler)
    (hcap : 0 ≤ capacity)
    (hr : ∀ v ∈ river_scheduler.voyages, 0 ≤ v.capacity)
    (hs : ∀ v ∈ sea_scheduler.voyages, 0 ≤ v.capacity) :
    ∀ en ∈ (TankSimulation.make capacity river_scheduler sea_scheduler).tank_log,
      0 ≤ en.tank_level ∧ en.tank_level ≤ capacity := by
  intro en hen
  refine replay_levels_mem_Icc capacity hcap
    ((mkEvents river_scheduler sea_scheduler).insertionSort byTime)
    0 le_rfl hcap ?_ en hen
  intro e he
  obtain ⟨v, hv, hev⟩ := mem_mkEvents_volume ((List.mem_insertionSort byTime).1 he)
  rw [hev]
  rcases hv with hv | hv
  · exact hr v hv
  · exact hs v hv

/-- Witness for C1 at the app's default configuration: the first log entry
of the concrete simulation lies within `[0, 100]`. -/
theorem C1_clamping_witness :
    0 ≤ ((TankSimulation.make 100 rivSched seaSched).tank_log.getD 0
        default).tank_level ∧
    ((TankSimulation.make 100 rivSched seaSched).tank_log.getD 0
        default).tank_level ≤ 100 := by
  have hlen : 0 < (TankSimulation.make 100 rivSched seaSched).tank_log.length := by
    show 0 <
      (replay 100 0 ((mkEvents rivSched seaSched).insertionSort byTime)).2.length
    rw [replay_log_length, List.length_insertionSort, mkEvents_length]
    simp only [rivSched, seaSched, make_voyages_length]
    decide
  have hmem : (TankSimulation.make 100 rivSched seaSched).tank_log.getD 0 default ∈
      (TankSimulation.make 100 rivSched seaSched).tank_log := by
    rw [List.getD_eq_getElem _ _ hlen]
    exact List.getElem_mem hlen
  refine C1_clamping 100 rivSched seaSched (by norm_num) ?_ ?_ _ hmem
  · intro v hv
    obtain ⟨k, _, rfl⟩ := mem_make_voyages.1 hv
    rw [calculate_voyage_capacity]
    norm_num [rivRoute]
  · intro v hv
    obtain ⟨k, _, rfl⟩ := mem_make_voyages.1 hv
    rw [calculate_voyage_capacity]
    norm_num [seaRoute]

/-- C2: every voyage produced by the scheduler satisfies the chaining
invariant (each stop after the first departs exactly when the previous
stop's operation ended) and the within-stop equations
`arrival = departure + transit` and `operation_end = arrival + operation`. -/
theorem C2_chaining (route : Route) (start_date interval_days : ℚ)
    (num_ships : ℤ) :
    ∀ v ∈ (VoyageScheduler.make route start_date num_ships
        interval_days).voyages,
      List.Chain' (fun a b => b.departure = a.operation_end) v.itinerary ∧
      ∀ s ∈ v.itinerary,
        s.arrival = s.departure + s.voyage_time_days ∧
        s.operation_end = s.arrival + s.operation_days := by
  intro v hv
  obtain ⟨k, _, rfl⟩ := mem_make_voyages.1 hv
  exact ⟨calcItinerary_chain _ _ _, calcItinerary_stop_arith _ _ _⟩

/-- Witness for C2 on a concrete two-leg voyage. -/
theorem C2_chaining_witness :
    List.Chain' (fun a b => b.departure = a.operation_end)
      ((VoyageScheduler.make twoLegRoute 0 1 1).voyages.getD 0
        default).itinerary ∧
    (((VoyageScheduler.make twoLegRoute 0 1 1).voyages.getD 0
        default).itinerary.getD 1 default).arrival =
      (((VoyageScheduler.make twoLegRoute 0 1 1).voyages.getD 0
        default).itinerary.getD 1 default).departure +
      (((VoyageScheduler.make twoLegRoute 0 1 1).voyages.getD 0
        default).itinerary.getD 1 default).voyage_time_days := by
  have hlen : 0 < (VoyageScheduler.make twoLegRoute 0 1 1).voyages.length := by
    rw [make_voyages_length]
    decide
  have hvm : (VoyageScheduler.make twoLegRoute 0 1 1).voyages.getD 0 default ∈
      (VoyageScheduler.make twoLegRoute 0 1 1).voyages := by
    rw [List.getD_eq_getElem _ _ hlen]
    exact List.getElem_mem hlen
  have hvit : ((VoyageScheduler.make twoLegRoute 0 1 1).voyages.getD 0
      default).itinerary.length = 2 := by
    rw [make_voyages_getD twoLegRoute 0 1 1 0 (by decide),
      calculate_voyage_itinerary, calcItinerary_length]
    rfl
  have hslen : 1 < ((VoyageScheduler.make twoLegRoute 0 1 1).voyages.getD 0
      default).itinerary.length := by
    rw [hvit]
    norm_num
  have hsm : ((VoyageScheduler.make twoLegRoute 0 1 1).voyages.getD 0
      default).itinerary.getD 1 default ∈
      ((VoyageScheduler.make twoLegRoute 0 1 1).voyages.getD 0
        default).itinerary := by
    rw [List.getD_eq_getElem _ _ hslen]
    exact List.getElem_mem hslen
  exact ⟨(C2_chaining twoLegRoute 0 1 1 _ hvm).1,
    ((C2_chaining twoLegRoute 0 1 1 _ hvm).2 _ hsm).1⟩

/-- C3: for a scheduler with `vessel_count = n ≥ 1` and
`interval = d ≥ 0` over a route with at least one leg, exactly `n` voyages
are generated, and for every `k` in `1..n` voyage `k`'s first stop departs
exactly at `start_date + (k-1)*d`; in particular `d = 0` does not fail and
yields simultaneous departures. -/
theorem C3_departure_spacing (route : Route) (start_date interval_days : ℚ)
    (num_ships : ℤ) (k : ℕ)
    (hn : 1 ≤ num_ships) (_hd : 0 ≤ interval_days) (hlegs : route.legs ≠ [])
    (hk1 : 1 ≤ k) (hk2 : (k : ℤ) ≤ num_ships) :
    (VoyageScheduler.make route start_date num_ships
        interval_days).voyages.length = num_ships.toNat ∧
    (((VoyageScheduler.make route start_date num_ships
        interval_days).voyages.getD (k - 1) default).itinerary.headD
        default).departure =
      start_date + ((k : ℚ) - 1) * interval_days := by
  refine ⟨make_voyages_length _ _ _ _, ?_⟩
  have hk : k - 1 < num_ships.toNat := by omega
  rw [make_voyages_getD route start_date interval_days num_ships (k - 1) hk]
  have hhd : ((calculate_voyage route ((k - 1 : ℕ) + 1)
      (start_date + ((k - 1 : ℕ) : ℚ) * interval_days)).itinerary.headD
        default).departure =
      start_date + ((k - 1 : ℕ) : ℚ) * interval_days :=
    calcItinerary_head_departure route.legs _ 0 hlegs default
  rw [hhd, Nat.cast_sub hk1, Nat.cast_one]

/-- Witness for C3 with interval 0 (simultaneous departures must not fail):
vessel 2 of 2 departs at the start date. -/
theorem C3_departure_spacing_witness :
    ((1 : ℤ) ≤ 2 ∧ (0 : ℚ) ≤ 0 ∧ rivRoute.legs ≠ [] ∧ 1 ≤ 2 ∧
      ((2 : ℕ) : ℤ) ≤ 2) ∧
    ((VoyageScheduler.make rivRoute 7 2 0).voyages.length = (2 : ℤ).toNat ∧
    (((VoyageScheduler.make rivRoute 7 2 0).voyages.getD (2 - 1)
        default).itinerary.headD default).departure =
      7 + (((2 : ℕ) : ℚ) - 1) * 0) :=
  ⟨⟨by norm_num, by norm_num, by decide, by norm_num, by norm_num⟩,
    C3_departure_spacing rivRoute 7 0 2 2 (by norm_num) (by norm_num)
      (by decide) (by norm_num) (by norm_num)⟩

/-- C4: the simulation builds exactly one inflow event per river voyage,
timestamped at that voyage's last stop's `arrival` (not `operation_end`),
and exactly one outflow event per sea voyage, timestamped at that voyage's
first stop's `departure`; every event carries the voyage's full vessel
capacity as volume and is tagged with the river route's terminal port. -/
theorem C4_event_construction (river_scheduler sea_scheduler : VoyageScheduler)
    (hlegs : river_scheduler.route.legs ≠ [])
    (_hri : ∀ v ∈ river_scheduler.voyages, v.itinerary ≠ [])
    (_hsi : ∀ v ∈ sea_scheduler.voyages, v.itinerary ≠ []) :
    ((mkEvents river_scheduler sea_scheduler).filter
        (fun e => e.type == EventType.river_arrival)) =
      river_scheduler.voyages.map (fun v =>
        { time := (v.itinerary.getLastD default).arrival
          type := EventType.river_arrival
          ship := v.ship_name
          port := (river_scheduler.route.legs.getLastD default).port_to
          volume := v.capacity }) ∧
    ((mkEvents river_scheduler sea_scheduler).filter
        (fun e => e.type == EventType.sea_departure)) =
      sea_scheduler.voyages.map (fun v =>
        { time := (v.itinerary.headD default).departure
          type := EventType.sea_departure
          ship := v.ship_name
          port := (river_scheduler.route.legs.getLastD default).port_to
          volume := v.capacity }) ∧
    (mkEvents river_scheduler sea_scheduler).length =
      river_scheduler.voyages.length + sea_scheduler.voyages.length := by
  have hport : river_scheduler.route.get_ports.getLastD "" =
      (river_scheduler.route.legs.getLastD default).port_to :=
    get_ports_getLastD _ hlegs
  refine ⟨?_, ?_, mkEvents_length _ _⟩
  · show ((river_scheduler.voyages.map _ ++ sea_scheduler.voyages.map _).filter _) = _
    rw [List.filter_append, List.filter_map, List.filter_map, hport]
    simp only [Function.comp_def]
    simp
  · show ((river_scheduler.voyages.map _ ++ sea_scheduler.voyages.map _).filter _) = _
    rw [List.filter_append, List.filter_map, List.filter_map, hport]
    simp only [Function.comp_def]
    simp

/-- Witness for C4 at the app's default configuration: the event list has
one event per voyage of either fleet. -/
theorem C4_event_construction_witness :
    (mkEvents rivSched seaSched).length =
      rivSched.voyages.length + seaSched.voyages.length :=
  (C4_event_construction rivSched seaSched (by decide)
    (fun v hv => by
      obtain ⟨k, _, rfl⟩ := mem_make_voyages.1 hv
      rw [calculate_voyage_itinerary, Ne, calcItinerary_eq_nil_iff]
      decide)
    (fun v hv => by
      obtain ⟨k, _, rfl⟩ := mem_make_voyages.1 hv
      rw [calculate_voyage_itinerary, Ne, calcItinerary_eq_nil_iff]
      decide)).2.2

/-- C5: events are applied in ascending time order, and on a timestamp tie
between an inflow and an outflow the inflow is always applied (and logged)
first — the stable sort keyed only on time preserves the pre-sort
inflow-before-outflow enumeration order. -/
theorem C5_tie_break (capacity : ℚ)
    (river_scheduler sea_scheduler : VoyageScheduler) :
    (TankSimulation.make capacity river_scheduler sea_scheduler).tank_log.Pairwise
      (fun a b => a.time ≤ b.time ∧
        (a.time = b.time →
          ¬(a.action_kind = EventType.sea_departure ∧
            b.action_kind = EventType.river_arrival))) := by
  obtain ⟨ins, outs, heq, hin, hout⟩ :=
    mkEvents_split river_scheduler sea_scheduler
  have hsorted :
      ((mkEvents river_scheduler sea_scheduler).insertionSort byTime).Pairwise
        byTime :=
    List.sorted_insertionSort byTime _
  have htie :
      ((mkEvents river_scheduler sea_scheduler).insertionSort byTime).Pairwise
        TiePair := by
    rw [heq]
    exact pairwise_tiePair_insertionSort ins outs hin hout
  have hcomb :
      ((mkEvents river_scheduler sea_scheduler).insertionSort byTime).Pairwise
        (fun a b => byTime a b ∧ TiePair a b) := hsorted.and htie
  have h1 :
      (((mkEvents river_scheduler sea_scheduler).insertionSort byTime).map
          (fun e => (e.time, e.type))).Pairwise
        (fun p q => p.1 ≤ q.1 ∧
          (p.1 = q.1 →
            ¬(p.2 = EventType.sea_departure ∧ q.2 = EventType.river_arrival))) :=
    List.pairwise_map.2 (hcomb.imp (fun h => ⟨h.1, h.2⟩))
  have hkey :
      (((mkEvents river_scheduler sea_scheduler).insertionSort byTime).map
          (fun e => (e.time, e.type))) =
        (TankSimulation.make capacity river_scheduler
            sea_scheduler).tank_log.map (fun en => (en.time, en.action_kind)) :=
    (replay_log_key capacity _ 0).symm
  rw [hkey] at h1
  exact List.pairwise_map.1 h1

/-- C6: if every prefix of the time-sorted event sequence keeps cumulative
inflow minus cumulative outflow within `[0, capacity]`, no clamping occurs
and the final level equals exactly total inflow minus total outflow. -/
theorem C6_conservation (capacity : ℚ)
    (river_scheduler sea_scheduler : VoyageScheduler)
    (h : ∀ n ≤ (TankSimulation.make capacity river_scheduler
        sea_scheduler).events.length,
      0 ≤ netSum ((TankSimulation.make capacity river_scheduler
          sea_scheduler).events.take n) ∧
      netSum ((TankSimulation.make capacity river_scheduler
          sea_scheduler).events.take n) ≤ capacity) :
    (TankSimulation.make capacity river_scheduler sea_scheduler).level =
      totalInflow (TankSimulation.make capacity river_scheduler
          sea_scheduler).events -
        totalOutflow (TankSimulation.make capacity river_scheduler
          sea_scheduler).events := by
  rw [← netSum_eq_totalInflow_sub_totalOutflow]
  have hfin := replay_final_level capacity
    ((mkEvents river_scheduler sea_scheduler).insertionSort byTime) 0 ?_
  · show (replay capacity 0
        ((mkEvents river_scheduler sea_scheduler).insertionSort byTime)).1 = _
    rw [hfin, zero_add]
    rfl
  · intro n hn
    have hb := h n hn
    constructor
    · have := hb.1
      rw [zero_add]
      exact this
    · have := hb.2
      rw [zero_add]
      exact this

/-- Witness for C6: one inflow of 30 into an empty 100-capacity buffer with
no outflows keeps every prefix within bounds, so the final level is exactly
total inflow minus total outflow. -/
theorem C6_conservation_witness :
    (TankSimulation.make 100 c6Riv c6Sea).level =
      totalInflow (TankSimulation.make 100 c6Riv c6Sea).events -
        totalOutflow (TankSimulation.make 100 c6Riv c6Sea).events := by
  have h1 : mkEvents c6Riv c6Sea = [(mkEvents c6Riv c6Sea).headD default] := rfl
  have hev : (TankSimulation.make 100 c6Riv c6Sea).events =
      mkEvents c6Riv c6Sea := by
    show (mkEvents c6Riv c6Sea).insertionSort byTime = mkEvents c6Riv c6Sea
    rw [h1]
    rfl
  have htype : ((mkEvents c6Riv c6Sea).headD default).type =
      EventType.river_arrival := rfl
  have hvol : ((mkEvents c6Riv c6Sea).headD default).volume = 30 := rfl
  refine C6_conservation 100 c6Riv c6Sea ?_
  intro n hn
  rw [hev, h1] at hn ⊢
  simp only [List.length_cons, List.length_nil, Nat.zero_add] at hn
  interval_cases n
  · simp [netSum_nil]
  · rw [List.take_succ_cons, List.take_zero, netSum_cons, netSum_nil,
      signedVolume_river htype, hvol]
    norm_num

/-- C7: the cycle-length metric is the maximum, over all voyages from both
schedulers, of the floored day difference between the voyage's final
arrival and the first-generated river (inflow) voyage's first stop
departure — the base is that first inflow departure, not a global minimum. -/
theorem C7_cycle_length (river_scheduler sea_scheduler : VoyageScheduler)
    (v0 : Voyage) (vs : List Voyage) (s0 : Stop) (ss : List Stop)
    (hv : river_scheduler.voyages = v0 :: vs)
    (hs : v0.itinerary = s0 :: ss) :
    (∀ v ∈ river_scheduler.voyages ++ sea_scheduler.voyages,
      Int.floor (v.arrival_final - s0.departure) ≤
        cycle_length river_scheduler sea_scheduler) ∧
    ∃ v ∈ river_scheduler.voyages ++ sea_scheduler.voyages,
      cycle_length river_scheduler sea_scheduler =
        Int.floor (v.arrival_final - s0.departure) := by
  have hbase : ((river_scheduler.voyages.headD default).itinerary.headD
      default).departure = s0.departure := by
    rw [hv, List.headD_cons, hs, List.headD_cons]
  have hcl : cycle_length river_scheduler sea_scheduler =
      pyMaxInt ((river_scheduler.voyages ++ sea_scheduler.voyages).map
        (fun v => Int.floor (v.arrival_final - s0.departure))) := by
    simp only [cycle_length]
    rw [hbase]
  have hlist : (river_scheduler.voyages ++ sea_scheduler.voyages).map
      (fun v => Int.floor (v.arrival_final - s0.departure)) =
      Int.floor (v0.arrival_final - s0.departure) ::
        (vs ++ sea_scheduler.voyages).map
          (fun v => Int.floor (v.arrival_final - s0.departure)) := by
    rw [hv, List.cons_append, List.map_cons]
  constructor
  · intro v hv'
    have hmm : Int.floor (v.arrival_final - s0.departure) ∈
        (river_scheduler.voyages ++ sea_scheduler.voyages).map
          (fun v => Int.floor (v.arrival_final - s0.departure)) :=
      List.mem_map_of_mem _ hv'
    rw [hlist] at hmm
    rw [hcl, hlist]
    exact pyMaxInt_cons_ge _ _ _ hmm
  · have hmem := pyMaxInt_cons_mem
      (Int.floor (v0.arrival_final - s0.departure))
      ((vs ++ sea_scheduler.voyages).map
        (fun v => Int.floor (v.arrival_final - s0.departure)))
    rw [← hlist] at hmem
    obtain ⟨v, hv', hfv⟩ := List.mem_map.1 hmem
    refine ⟨v, hv', ?_⟩
    rw [hcl]
    exact hfv.symm

/-- Witness for C7: on a concrete one-voyage-per-fleet configuration, the
sea voyage's floored day difference from the first river departure bounds
the cycle length. -/
theorem C7_cycle_length_witness :
    Int.floor ((c7Sea.voyages.headD default).arrival_final -
      ((c6Riv.voyages.headD default).itinerary.headD default).departure) ≤
      cycle_length c6Riv c7Sea :=
  (C7_cycle_length c6Riv c7Sea (c6Riv.voyages.headD default) []
      ((c6Riv.voyages.headD default).itinerary.headD default) [] rfl rfl).1
    (c7Sea.voyages.headD default)
    (List.mem_append_right c6Riv.voyages
      (headD_mem c7Sea.voyages default (by decide)))

/-- C8: each voyage's `total_voyage_time` is the elapsed time from the
voyage's departure to its final operation end, floored to an integer day
count — the fractional remainder is dropped, not rounded. -/
theorem C8_duration_truncation (route : Route)
    (start_date interval_days : ℚ) (num_ships : ℤ)
    (hlegs : route.legs ≠ []) :
    ∀ v ∈ (VoyageScheduler.make route start_date num_ships
        interval_days).voyages,
      v.arrival_final = (v.itinerary.getLastD default).operation_end ∧
      v.total_voyage_time =
        Int.floor ((v.itinerary.getLastD default).operation_end -
          (v.itinerary.headD default).departure) ∧
      (v.total_voyage_time : ℚ) ≤
        (v.itinerary.getLastD default).operation_end -
          (v.itinerary.headD default).departure ∧
      (v.itinerary.getLastD default).operation_end -
          (v.itinerary.headD default).departure <
        (v.total_voyage_time : ℚ) + 1 := by
  intro v hv
  obtain ⟨k, _, rfl⟩ := mem_make_voyages.1 hv
  have hlast : ((calculate_voyage route ((k : ℤ) + 1)
      (start_date + (k : ℚ) * interval_days)).itinerary.getLastD
        default).operation_end =
      walkEnd route.legs (start_date + (k : ℚ) * interval_days) := by
    rw [calculate_voyage_itinerary]
    exact calcItinerary_getLastD_operation_end route.legs _ 0 hlegs default
  have hhead : ((calculate_voyage route ((k : ℤ) + 1)
      (start_date + (k : ℚ) * interval_days)).itinerary.headD
        default).departure = start_date + (k : ℚ) * interval_days := by
    rw [calculate_voyage_itinerary]
    exact calcItinerary_head_departure route.legs _ 0 hlegs default
  have hfin : (calculate_voyage route ((k : ℤ) + 1)
      (start_date + (k : ℚ) * interval_days)).arrival_final =
      walkEnd route.legs (start_date + (k : ℚ) * interval_days) := rfl
  have htot : (calculate_voyage route ((k : ℤ) + 1)
      (start_date + (k : ℚ) * interval_days)).total_voyage_time =
      Int.floor (walkEnd route.legs (start_date + (k : ℚ) * interval_days) -
        (start_date + (k : ℚ) * interval_days)) := rfl
  refine ⟨by rw [hfin, hlast], ?_, ?_, ?_⟩
  · rw [htot, hlast, hhead]
  · rw [htot, hlast, hhead]
    exact Int.floor_le _
  · rw [htot, hlast, hhead]
    exact Int.lt_floor_add_one _

/-- Witness for C8 on a concrete two-leg voyage with a fractional total
duration (8.5 days, truncated to 8). -/
theorem C8_duration_truncation_witness :
    ((VoyageScheduler.make twoLegRoute 0 1 1).voyages.headD
        default).total_voyage_time =
      Int.floor ((((VoyageScheduler.make twoLegRoute 0 1 1).voyages.headD
          default).itinerary.getLastD default).operation_end -
        (((VoyageScheduler.make twoLegRoute 0 1 1).voyages.headD
          default).itinerary.headD default).departure) :=
  ((C8_duration_truncation twoLegRoute 0 1 1 (by decide)
      ((VoyageScheduler.make twoLegRoute 0 1 1).voyages.headD default)
      (headD_mem _ default (by decide)))).2.1

/-- C9, corrected: metrics over a simulation whose log is empty fail with
the unqualified empty-collection error (Python's `ValueError` from
`max()` / `min()` on an empty list); no distinct EmptyResultError exists
in the code. -/
theorem C9_empty_log_error (sim : TankSimulation) (h : sim.tank_log = []) :
    max_level sim = Except.error MetricsError.emptyCollection ∧
    min_level sim = Except.error MetricsError.emptyCollection := by
  unfold max_level min_level
  rw [h]
  exact ⟨rfl, rfl⟩

/-- Witness for the corrected C9 at the concrete both-fleets-empty
simulation. -/
theorem C9_empty_log_error_witness :
    max_level c9Empty = Except.error MetricsError.emptyCollection ∧
    min_level c9Empty = Except.error MetricsError.emptyCollection :=
  C9_empty_log_error c9Empty rfl

/-- Counterexample to C9 as stated: with both fleets empty the metrics fail
with the unqualified empty-collection error (no distinct "no data" signal),
and with only the outflow fleet empty — one of the situations the claim
covers — the log is non-empty and the metrics succeed outright. -/
theorem C9_counterexample :
    max_level c9Empty = Except.error MetricsError.emptyCollection ∧
    c9Half.tank_log ≠ [] ∧
    max_level c9Half = Except.ok 30 := by
  refine ⟨rfl, by decide, ?_⟩
  have hlog : c9Half.tank_log.map LogEntry.tank_level =
      [min ((0 : ℚ) + 30) 100] := rfl
  unfold max_level
  rw [hlog]
  show Except.ok (min ((0 : ℚ) + 30) 100) = Except.ok 30
  rw [min_def]
  norm_num

/-- C10, corrected: construction performs no validation at all — a zero or
negative vessel count, an empty leg list, or a non-positive capacity are
silently accepted, and every parameter is stored unchanged. -/
theorem C10_no_validation (route : Route) (start_date interval_days : ℚ)
    (num_ships : ℤ) (capacity : ℚ)
    (river_scheduler sea_scheduler : VoyageScheduler) :
    (VoyageScheduler.make route start_date num_ships
        interval_days).voyages.length = num_ships.toNat ∧
    (VoyageScheduler.make route start_date num_ships
        interval_days).route = route ∧
    (TankSimulation.make capacity river_scheduler sea_scheduler).capacity =
      capacity :=
  ⟨make_voyages_length _ _ _ _, rfl, rfl⟩

/-- Counterexample to C10 as stated: invalid configurations are accepted at
construction time — zero and negative vessel counts yield an empty voyage
list, an empty leg list yields a voyage with an empty itinerary, and
negative capacities are stored unchanged; no validation error is raised. -/
theorem C10_counterexample :
    (VoyageScheduler.make rivRoute 0 0 1).voyages = [] ∧
    (VoyageScheduler.make rivRoute 0 (-3) 1).voyages = [] ∧
    (VoyageScheduler.make emptyLegRoute 0 1 1).voyages.length = 1 ∧
    ((VoyageScheduler.make emptyLegRoute 0 1 1).voyages.headD
        default).itinerary = [] ∧
    ((VoyageScheduler.make negCapRoute 0 1 1).voyages.headD
        default).capacity = -5 ∧
    (TankSimulation.make (-10) rivSched seaSched).capacity = -10 :=
  ⟨rfl, rfl, rfl, rfl, rfl, rfl⟩

end FleetList
